import Mathlib

/-!
Shallow embedding of the Workout API service (src/server/index.ts).

The service exposes CRUD routes over two relational tables:
`treinos` (workouts) and `secoes_treino` (ordered workout sections).
The database is modelled as lists of rows plus generated-id counters;
each route handler becomes a pure function from the request data and
the database state to an HTTP result (status, JSON body, new state).

Store failures are modelled by a failure oracle `f : Nat → Bool`:
the queries a handler issues are numbered in execution order, and
`f k = true` means the k-th query of this request throws.  A throw is
caught by the handler's try/catch and answered with a 500; the effects
of the queries already executed persist (the code wraps nothing in a
transaction).
-/

/-- A row of table `treinos`. -/
structure Treino where
  id : Nat
  data : Int
  dia_semana : String
  foco_tecnico : String
  criado_em : Nat
  atualizado_em : Nat
deriving DecidableEq

/-- A row of table `secoes_treino`. -/
structure Secao where
  id : Nat
  treino_id : Nat
  nome_secao : String
  duracao_minutos : Int
  conteudo : String
  ordem : Int
  criado_em : Nat
deriving DecidableEq

/-- The database state: both tables, the id sequences, and the clock
value `NOW()` returns during this request. -/
structure DB where
  treinos : List Treino
  secoes : List Secao
  nextTreinoId : Nat
  nextSecaoId : Nat
  now : Nat
deriving DecidableEq

/-- One element of the request body field `secoes`. -/
structure SecaoInput where
  nome_secao : String
  duracao_minutos : Int
  conteudo : String
  ordem : Int
deriving DecidableEq

/-- The JSON value found at `req.body.secoes`: absent or falsy, truthy
but not an array (`Array.isArray` fails), or an array of elements. -/
inductive SecoesField where
  | missing
  | notArray
  | arr (xs : List SecaoInput)
deriving DecidableEq

/-- Request body of POST /api/treinos and PUT /api/treinos/:id. -/
structure TreinoBody where
  data : Int
  dia_semana : String
  foco_tecnico : String
  secoes : SecoesField
deriving DecidableEq

/-- A JSON response body. -/
inductive Resp where
  | treino (t : Treino)
  | treinos (ts : List Treino)
  | secoes (ss : List Secao)
  | message (s : String)
  | error (s : String)
deriving DecidableEq

/-- Result of a handler: HTTP status, JSON body, database afterwards. -/
structure HResult where
  status : Nat
  body : Resp
  db : DB
deriving DecidableEq

/-- The failure oracle of a request none of whose queries fails. -/
def noFail : Nat → Bool := fun _ => false

/-- The failure oracle under which exactly the n-th query fails. -/
def failAt (n : Nat) : Nat → Bool := fun k => k == n

/-- `ORDER BY ordem` (ascending). -/
def secaoLe (a b : Secao) : Prop := a.ordem ≤ b.ordem

instance : DecidableRel secaoLe := fun a b => inferInstanceAs (Decidable (a.ordem ≤ b.ordem))

instance : IsTotal Secao secaoLe := ⟨fun a b => Int.le_total a.ordem b.ordem⟩

instance : IsTrans Secao secaoLe := ⟨fun _ _ _ h1 h2 => le_trans h1 h2⟩

/-- `ORDER BY data DESC` (descending). -/
def treinoGe (a b : Treino) : Prop := b.data ≤ a.data

instance : DecidableRel treinoGe := fun a b => inferInstanceAs (Decidable (b.data ≤ a.data))

instance : IsTotal Treino treinoGe := ⟨fun a b => Int.le_total b.data a.data⟩

instance : IsTrans Treino treinoGe := ⟨fun _ _ _ h1 h2 => le_trans h2 h1⟩

/-- Sort section rows by `ordem` ascending. -/
def sortByOrdem (ss : List Secao) : List Secao := List.insertionSort secaoLe ss

/-- Sort workout rows by `data` descending. -/
def sortByDataDesc (ts : List Treino) : List Treino := List.insertionSort treinoGe ts

/-- The row inserted by
`INSERT INTO treinos (data, dia_semana, foco_tecnico, criado_em, atualizado_em) VALUES ($1, $2, $3, NOW(), NOW())`. -/
def mkTreino (nid : Nat) (now : Nat) (b : TreinoBody) : Treino :=
  ⟨nid, b.data, b.dia_semana, b.foco_tecnico, now, now⟩

/-- The row inserted by
`INSERT INTO secoes_treino (treino_id, nome_secao, duracao_minutos, conteudo, ordem, criado_em) VALUES ($1, $2, $3, $4, $5, NOW())`. -/
def mkSecao (sid tid : Nat) (now : Nat) (x : SecaoInput) : Secao :=
  ⟨sid, tid, x.nome_secao, x.duracao_minutos, x.conteudo, x.ordem, now⟩

/-- The section rows produced by inserting `xs` in order for workout
`tid`, starting from id sequence value `nid`. -/
def mkSecoesList (tid : Nat) (nid : Nat) (now : Nat) : List SecaoInput → List Secao
  | [] => []
  | x :: xs => mkSecao nid tid now x :: mkSecoesList tid (nid + 1) now xs

/-- The `for (const secao of secoes)` insert loop of the POST and PUT
handlers.  `k` is the index of the next query; the Bool is false when a
query threw, in which case the returned DB holds the rows inserted
before the throw. -/
def insertSecoesGo (f : Nat → Bool) (tid : Nat) : Nat → DB → List SecaoInput → DB × Bool
  | _, db, [] => (db, true)
  | k, db, x :: xs =>
    if f k then (db, false)
    else insertSecoesGo f tid (k + 1)
      { db with secoes := db.secoes ++ [mkSecao db.nextSecaoId tid db.now x],
                nextSecaoId := db.nextSecaoId + 1 } xs

/-- Handler of GET /api/treinos: `SELECT * FROM treinos ORDER BY data DESC`. -/
def getTreinos (f : Nat → Bool) (db : DB) : HResult :=
  if f 0 then ⟨500, .error "Failed to fetch treinos", db⟩
  else ⟨200, .treinos (sortByDataDesc db.treinos), db⟩

/-- Handler of GET /api/treinos/:id: `SELECT * FROM treinos WHERE id = $1`,
404 when no row matches, else the first row. -/
def getTreinoById (f : Nat → Bool) (db : DB) (id : Nat) : HResult :=
  if f 0 then ⟨500, .error "Failed to fetch treino", db⟩
  else
    match db.treinos.filter (fun t => t.id == id) with
    | [] => ⟨404, .error "Treino not found", db⟩
    | t :: _ => ⟨200, .treino t, db⟩

/-- Handler of POST /api/treinos: insert the workout row (query 0,
RETURNING * yields the generated id), then, when `secoes` is an array,
insert one section row per element (queries 1..); respond 201 with the
created workout row. -/
def postTreinos (f : Nat → Bool) (db : DB) (b : TreinoBody) : HResult :=
  if f 0 then ⟨500, .error "Failed to create treino", db⟩
  else
    let t := mkTreino db.nextTreinoId db.now b
    let db1 : DB := { db with treinos := db.treinos ++ [t], nextTreinoId := db.nextTreinoId + 1 }
    match b.secoes with
    | .arr xs =>
      let r := insertSecoesGo f t.id 1 db1 xs
      if r.2 then ⟨201, .treino t, r.1⟩ else ⟨500, .error "Failed to create treino", r.1⟩
    | _ => ⟨201, .treino t, db1⟩

/-- The updated workout row produced by
`UPDATE treinos SET data = $1, dia_semana = $2, foco_tecnico = $3, atualizado_em = NOW() WHERE id = $4`. -/
def updTreino (b : TreinoBody) (now : Nat) (t : Treino) : Treino :=
  { t with data := b.data, dia_semana := b.dia_semana, foco_tecnico := b.foco_tecnico,
           atualizado_em := now }

/-- Handler of PUT /api/treinos/:id: update the workout row (query 0,
RETURNING *); 404 when nothing matched; else delete all its sections
(query 1) and, when `secoes` is an array, insert the new ones
(queries 2..); respond 200 with the updated row. -/
def putTreino (f : Nat → Bool) (db : DB) (id : Nat) (b : TreinoBody) : HResult :=
  if f 0 then ⟨500, .error "Failed to update treino", db⟩
  else
    let updatedRows := (db.treinos.filter (fun t => t.id == id)).map (updTreino b db.now)
    let db1 : DB :=
      { db with treinos := db.treinos.map (fun t => if t.id == id then updTreino b db.now t else t) }
    match updatedRows with
    | [] => ⟨404, .error "Treino not found", db1⟩
    | t0 :: _ =>
      if f 1 then ⟨500, .error "Failed to update treino", db1⟩
      else
        let db2 : DB := { db1 with secoes := db1.secoes.filter (fun s => s.treino_id != id) }
        match b.secoes with
        | .arr xs =>
          let r := insertSecoesGo f id 2 db2 xs
          if r.2 then ⟨200, .treino t0, r.1⟩ else ⟨500, .error "Failed to update treino", r.1⟩
        | _ => ⟨200, .treino t0, db2⟩

/-- Handler of DELETE /api/treinos/:id: delete all sections of the
workout first (query 0, unconditional), then the workout row (query 1,
RETURNING *); 404 when no workout row matched, else a confirmation
message. -/
def deleteTreino (f : Nat → Bool) (db : DB) (id : Nat) : HResult :=
  if f 0 then ⟨500, .error "Failed to delete treino", db⟩
  else
    let db1 : DB := { db with secoes := db.secoes.filter (fun s => s.treino_id != id) }
    if f 1 then ⟨500, .error "Failed to delete treino", db1⟩
    else
      let matched := db1.treinos.filter (fun t => t.id == id)
      let db2 : DB := { db1 with treinos := db1.treinos.filter (fun t => t.id != id) }
      match matched with
      | [] => ⟨404, .error "Treino not found", db2⟩
      | _ :: _ => ⟨200, .message "Treino deleted successfully", db2⟩

/-- Handler of GET /api/treinos/:id/secoes:
`SELECT * FROM secoes_treino WHERE treino_id = $1 ORDER BY ordem`. -/
def getSecoes (f : Nat → Bool) (db : DB) (id : Nat) : HResult :=
  if f 0 then ⟨500, .error "Failed to fetch sections", db⟩
  else ⟨200, .secoes (sortByOrdem (db.secoes.filter (fun s => s.treino_id == id))), db⟩

/-! ### Helper lemmas -/

theorem mkSecoesList_treino_id (tid now : Nat) :
    ∀ (xs : List SecaoInput) (nid : Nat), ∀ s ∈ mkSecoesList tid nid now xs, s.treino_id = tid := by
  intro xs
  induction xs with
  | nil => intro nid s hs; simp [mkSecoesList] at hs
  | cons x xs ih =>
    intro nid s hs
    simp only [mkSecoesList] at hs
    rcases List.mem_cons.mp hs with hs | hs
    · subst hs; rfl
    · exact ih (nid + 1) s hs

theorem mkSecoesList_length (tid now : Nat) :
    ∀ (xs : List SecaoInput) (nid : Nat), (mkSecoesList tid nid now xs).length = xs.length := by
  intro xs
  induction xs with
  | nil => intro nid; rfl
  | cons x xs ih => intro nid; simp [mkSecoesList, ih]

theorem insertSecoesGo_ok (f : Nat → Bool) (tid : Nat) (hf : ∀ j, f j = false) :
    ∀ (xs : List SecaoInput) (k : Nat) (db : DB),
    insertSecoesGo f tid k db xs =
      (⟨db.treinos, db.secoes ++ mkSecoesList tid db.nextSecaoId db.now xs,
        db.nextTreinoId, db.nextSecaoId + xs.length, db.now⟩, true) := by
  intro xs
  induction xs with
  | nil => intro k db; simp [insertSecoesGo, mkSecoesList]
  | cons x xs ih =>
    intro k db
    rw [insertSecoesGo, hf k]
    simp only [Bool.false_eq_true, if_false, ih, mkSecoesList]
    simp [List.append_assoc]
    omega

theorem insertSecoesGo_frame (f : Nat → Bool) (tid : Nat) :
    ∀ (xs : List SecaoInput) (k : Nat) (db : DB),
    ∃ l : List Secao,
      (insertSecoesGo f tid k db xs).1.treinos = db.treinos ∧
      (insertSecoesGo f tid k db xs).1.secoes = db.secoes ++ l ∧
      ∀ s ∈ l, s.treino_id = tid := by
  intro xs
  induction xs with
  | nil => intro k db; exact ⟨[], rfl, by simp [insertSecoesGo], by simp⟩
  | cons x xs ih =>
    intro k db
    rw [insertSecoesGo]
    by_cases hf : f k
    · exact ⟨[], by simp [hf], by simp [hf], by simp⟩
    · simp only [hf, Bool.false_eq_true, if_false]
      obtain ⟨l, h1, h2, h3⟩ := ih (k + 1)
        { db with secoes := db.secoes ++ [mkSecao db.nextSecaoId tid db.now x],
                  nextSecaoId := db.nextSecaoId + 1 }
      refine ⟨mkSecao db.nextSecaoId tid db.now x :: l, h1, ?_, ?_⟩
      · rw [h2]; simp
      · intro s hs
        rcases List.mem_cons.mp hs with hs | hs
        · subst hs; rfl
        · exact h3 s hs

theorem insertSecoesGo_failAt (f : Nat → Bool) (tid : Nat) :
    ∀ (i : Nat) (xs : List SecaoInput) (k : Nat) (db : DB),
    (∀ j, j < i → f (k + j) = false) → f (k + i) = true → i < xs.length →
    insertSecoesGo f tid k db xs =
      (⟨db.treinos, db.secoes ++ mkSecoesList tid db.nextSecaoId db.now (xs.take i),
        db.nextTreinoId, db.nextSecaoId + i, db.now⟩, false) := by
  intro i
  induction i with
  | zero =>
    intro xs k db hlo hhi hlen
    match xs, hlen with
    | x :: xs, _ =>
      rw [insertSecoesGo]
      simp only [Nat.add_zero] at hhi
      simp [hhi, mkSecoesList]
  | succ j ih =>
    intro xs k db hlo hhi hlen
    match xs, hlen with
    | x :: xs, hlen =>
      rw [insertSecoesGo]
      have hk : f k = false := by have := hlo 0 (Nat.succ_pos j); simpa using this
      simp only [hk, Bool.false_eq_true, if_false]
      rw [ih xs (k + 1)
        { db with secoes := db.secoes ++ [mkSecao db.nextSecaoId tid db.now x],
                  nextSecaoId := db.nextSecaoId + 1 }
        (fun m hm => by have := hlo (m + 1) (Nat.succ_lt_succ hm); simpa [Nat.add_assoc, Nat.add_comm 1 m] using this)
        (by have := hhi; simpa [Nat.add_assoc, Nat.add_comm 1 j] using this)
        (by simpa using Nat.lt_of_succ_lt_succ hlen)]
      simp [mkSecoesList, List.append_assoc]
      omega

theorem filter_key_ne_then_eq {α : Type} (key : α → Nat) (id : Nat) (l : List α) :
    (l.filter (fun a => key a != id)).filter (fun a => key a == id) = [] := by
  rw [List.filter_filter]
  apply List.filter_eq_nil_iff.mpr
  intro a _
  simp [bne]

theorem filter_key_ne_idem {α : Type} (key : α → Nat) (id : Nat) (l : List α) :
    (l.filter (fun a => key a != id)).filter (fun a => key a != id) =
      l.filter (fun a => key a != id) := by
  rw [List.filter_filter]
  simp

theorem filter_mkSecoesList_eq (tid nid now : Nat) (xs : List SecaoInput) :
    (mkSecoesList tid nid now xs).filter (fun s => s.treino_id == tid) =
      mkSecoesList tid nid now xs := by
  apply List.filter_eq_self.mpr
  intro s hs
  simp [mkSecoesList_treino_id tid now xs nid s hs]

theorem filter_mkSecoesList_ne (tid nid now : Nat) (xs : List SecaoInput) :
    (mkSecoesList tid nid now xs).filter (fun s => s.treino_id != tid) = [] := by
  apply List.filter_eq_nil_iff.mpr
  intro s hs
  simp [mkSecoesList_treino_id tid now xs nid s hs]

theorem filter_map_upd (id : Nat) (b : TreinoBody) (now : Nat) (l : List Treino) :
    (l.map (fun t => if t.id == id then updTreino b now t else t)).filter (fun t => t.id != id) =
      l.filter (fun t => t.id != id) := by
  induction l with
  | nil => rfl
  | cons t l ih =>
    simp only [List.map_cons, List.filter_cons]
    simp only [beq_iff_eq] at ih ⊢
    by_cases h : t.id = id
    · have hupd : (updTreino b now t).id = t.id := rfl
      simp [h, hupd, ih]
    · simp [h, ih]

theorem filter_id_eq_nil {l : List Treino} {id : Nat} (h : ∀ t ∈ l, t.id ≠ id) :
    l.filter (fun t => t.id == id) = [] := by
  apply List.filter_eq_nil_iff.mpr
  intro t ht
  simpa using h t ht

theorem postTreinos_arr_eq (db : DB) (b : TreinoBody) (xs : List SecaoInput)
    (hs : b.secoes = .arr xs) :
    postTreinos noFail db b =
      ⟨201, .treino (mkTreino db.nextTreinoId db.now b),
       ⟨db.treinos ++ [mkTreino db.nextTreinoId db.now b],
        db.secoes ++ mkSecoesList db.nextTreinoId db.nextSecaoId db.now xs,
        db.nextTreinoId + 1, db.nextSecaoId + xs.length, db.now⟩⟩ := by
  simp only [postTreinos, noFail, Bool.false_eq_true, if_false, hs]
  rw [insertSecoesGo_ok noFail _ (fun j => rfl)]
  rfl

theorem postTreinos_notArray_eq (db : DB) (b : TreinoBody) (hs : b.secoes = .notArray) :
    postTreinos noFail db b =
      ⟨201, .treino (mkTreino db.nextTreinoId db.now b),
       ⟨db.treinos ++ [mkTreino db.nextTreinoId db.now b], db.secoes,
        db.nextTreinoId + 1, db.nextSecaoId, db.now⟩⟩ := by
  simp [postTreinos, noFail, hs]

theorem putTreino_arr_eq (db : DB) (id : Nat) (b : TreinoBody) (xs : List SecaoInput)
    (hs : b.secoes = .arr xs) (t0 : Treino) (rest : List Treino)
    (hm : db.treinos.filter (fun t => t.id == id) = t0 :: rest) :
    putTreino noFail db id b =
      ⟨200, .treino (updTreino b db.now t0),
       ⟨db.treinos.map (fun t => if t.id == id then updTreino b db.now t else t),
        db.secoes.filter (fun s => s.treino_id != id) ++ mkSecoesList id db.nextSecaoId db.now xs,
        db.nextTreinoId, db.nextSecaoId + xs.length, db.now⟩⟩ := by
  simp only [putTreino, noFail, Bool.false_eq_true, if_false, hs, hm, List.map_cons]
  rw [insertSecoesGo_ok noFail _ (fun j => rfl)]
  rfl

theorem putTreino_notArray_eq (db : DB) (id : Nat) (b : TreinoBody)
    (hs : b.secoes = .notArray) (t0 : Treino) (rest : List Treino)
    (hm : db.treinos.filter (fun t => t.id == id) = t0 :: rest) :
    putTreino noFail db id b =
      ⟨200, .treino (updTreino b db.now t0),
       ⟨db.treinos.map (fun t => if t.id == id then updTreino b db.now t else t),
        db.secoes.filter (fun s => s.treino_id != id),
        db.nextTreinoId, db.nextSecaoId, db.now⟩⟩ := by
  simp only [putTreino, noFail, Bool.false_eq_true, if_false, hs, hm, List.map_cons]

theorem putTreino_404_eq (db : DB) (id : Nat) (b : TreinoBody)
    (hm : db.treinos.filter (fun t => t.id == id) = []) :
    putTreino noFail db id b =
      ⟨404, .error "Treino not found",
       ⟨db.treinos.map (fun t => if t.id == id then updTreino b db.now t else t),
        db.secoes, db.nextTreinoId, db.nextSecaoId, db.now⟩⟩ := by
  simp only [putTreino, noFail, Bool.false_eq_true, if_false, hm, List.map_nil]

theorem deleteTreino_found_eq (db : DB) (id : Nat) (t0 : Treino) (rest : List Treino)
    (hm : db.treinos.filter (fun t => t.id == id) = t0 :: rest) :
    deleteTreino noFail db id =
      ⟨200, .message "Treino deleted successfully",
       ⟨db.treinos.filter (fun t => t.id != id), db.secoes.filter (fun s => s.treino_id != id),
        db.nextTreinoId, db.nextSecaoId, db.now⟩⟩ := by
  simp only [deleteTreino, noFail, Bool.false_eq_true, if_false, hm]

theorem deleteTreino_404_eq (db : DB) (id : Nat)
    (hm : db.treinos.filter (fun t => t.id == id) = []) :
    deleteTreino noFail db id =
      ⟨404, .error "Treino not found",
       ⟨db.treinos.filter (fun t => t.id != id), db.secoes.filter (fun s => s.treino_id != id),
        db.nextTreinoId, db.nextSecaoId, db.now⟩⟩ := by
  simp only [deleteTreino, noFail, Bool.false_eq_true, if_false, hm]

/-! ### Sample data used to instantiate the theorems at concrete inputs -/

/-- A sample workout row with id 1. -/
def tSample : Treino := ⟨1, 10, "segunda", "base", 5, 5⟩

/-- A sample section row of workout 1. -/
def sSample1 : Secao := ⟨1, 1, "aquecimento", 10, "corrida", 2, 5⟩

/-- A second sample section row of workout 1. -/
def sSample2 : Secao := ⟨2, 1, "tecnica", 20, "drills", 1, 5⟩

/-- A sample store holding workout 1 with two sections. -/
def dbSample : DB := ⟨[tSample], [sSample1, sSample2], 2, 3, 9⟩

/-- A sample request body element for `secoes`. -/
def xSample : SecaoInput := ⟨"novo", 15, "conteudo", 1⟩

/-- A sample request body whose `secoes` is an array of one element. -/
def bArr : TreinoBody := ⟨11, "terca", "ataque", .arr [xSample]⟩

/-- A sample request body whose `secoes` is truthy but not an array. -/
def bNA : TreinoBody := ⟨11, "terca", "ataque", .notArray⟩

/-! ### Claims -/

/-- C1: a successful PUT /api/treinos/:id whose body carries a `secoes`
array of size M leaves the store with exactly the M submitted sections for
that workout and none of the sections it had before: the old ones are
deleted, never merged. -/
theorem put_replaces_sections (db : DB) (id : Nat) (b : TreinoBody) (xs : List SecaoInput)
    (hs : b.secoes = .arr xs) (hex : ∃ t ∈ db.treinos, t.id = id) :
    (putTreino noFail db id b).status = 200 ∧
    (putTreino noFail db id b).db.secoes.filter (fun s => s.treino_id == id) =
      mkSecoesList id db.nextSecaoId db.now xs ∧
    ((putTreino noFail db id b).db.secoes.filter (fun s => s.treino_id == id)).length =
      xs.length := by
  obtain ⟨t, ht, hid⟩ := hex
  have hmem : t ∈ db.treinos.filter (fun t => t.id == id) := by
    simp [List.mem_filter, ht, hid]
  rcases hm : db.treinos.filter (fun t => t.id == id) with _ | ⟨t0, rest⟩
  · rw [hm] at hmem; simp at hmem
  · rw [putTreino_arr_eq db id b xs hs t0 rest hm]
    have hfil :
        (db.secoes.filter (fun s => s.treino_id != id) ++
          mkSecoesList id db.nextSecaoId db.now xs).filter (fun s => s.treino_id == id) =
          mkSecoesList id db.nextSecaoId db.now xs := by
      rw [List.filter_append, filter_key_ne_then_eq (fun s : Secao => s.treino_id) id,
        filter_mkSecoesList_eq]
      simp
    exact ⟨rfl, hfil, by rw [hfil, mkSecoesList_length]⟩

/-- Witness for C1 at a concrete store and request. -/
theorem put_replaces_sections_witness :
    (putTreino noFail dbSample 1 bArr).status = 200 ∧
    (putTreino noFail dbSample 1 bArr).db.secoes.filter (fun s => s.treino_id == 1) =
      mkSecoesList 1 dbSample.nextSecaoId dbSample.now [xSample] ∧
    ((putTreino noFail dbSample 1 bArr).db.secoes.filter (fun s => s.treino_id == 1)).length =
      [xSample].length :=
  put_replaces_sections dbSample 1 bArr [xSample] rfl ⟨tSample, by decide, rfl⟩

/-- C2: PUT /api/treinos/:id on an id matching no workout row responds 404
and performs no section mutation: the section table is exactly as before
(and so is the workout table). -/
theorem put_missing_id_404 (f : Nat → Bool) (db : DB) (id : Nat) (b : TreinoBody)
    (hf : f 0 = false) (hnone : ∀ t ∈ db.treinos, t.id ≠ id) :
    (putTreino f db id b).status = 404 ∧
    (putTreino f db id b).body = .error "Treino not found" ∧
    (putTreino f db id b).db.secoes = db.secoes ∧
    (putTreino f db id b).db.treinos = db.treinos := by
  have hm : db.treinos.filter (fun t => t.id == id) = [] := filter_id_eq_nil hnone
  have hmap : db.treinos.map (fun t => if t.id == id then updTreino b db.now t else t) =
      db.treinos := by
    calc db.treinos.map (fun t => if t.id == id then updTreino b db.now t else t)
        = db.treinos.map (fun t => t) :=
          List.map_congr_left (by intro t ht; simp [hnone t ht])
      _ = db.treinos := by simp
  simp only [putTreino, hf, Bool.false_eq_true, if_false, hm, List.map_nil, hmap]
  exact ⟨trivial, trivial, trivial, trivial⟩

/-- Witness for C2 at a concrete store and request. -/
theorem put_missing_id_404_witness :
    (putTreino noFail dbSample 7 bArr).status = 404 ∧
    (putTreino noFail dbSample 7 bArr).body = .error "Treino not found" ∧
    (putTreino noFail dbSample 7 bArr).db.secoes = dbSample.secoes ∧
    (putTreino noFail dbSample 7 bArr).db.treinos = dbSample.treinos :=
  put_missing_id_404 noFail dbSample 7 bArr rfl (by decide)

/-- C3: DELETE /api/treinos/:id deletes all sections of the workout
unconditionally (even when the workout does not exist), responds 404 when
no workout row matched and 200 with a confirmation message otherwise, and
after a successful delete GET /:id answers 404 and GET /:id/secoes answers
an empty array. -/
theorem delete_spec (db : DB) (id : Nat) :
    (deleteTreino noFail db id).db.secoes = db.secoes.filter (fun s => s.treino_id != id) ∧
    ((∀ t ∈ db.treinos, t.id ≠ id) →
      (deleteTreino noFail db id).status = 404 ∧
      (deleteTreino noFail db id).body = .error "Treino not found") ∧
    ((∃ t ∈ db.treinos, t.id = id) →
      (deleteTreino noFail db id).status = 200 ∧
      (deleteTreino noFail db id).body = .message "Treino deleted successfully" ∧
      (getTreinoById noFail (deleteTreino noFail db id).db id).status = 404 ∧
      (getSecoes noFail (deleteTreino noFail db id).db id).body = .secoes []) := by
  rcases hm : db.treinos.filter (fun t => t.id == id) with _ | ⟨t0, rest⟩
  · rw [deleteTreino_404_eq db id hm]
    refine ⟨rfl, fun _ => ⟨rfl, rfl⟩, ?_⟩
    rintro ⟨t, ht, hid⟩
    have := List.filter_eq_nil_iff.mp hm t ht
    simp [hid] at this
  · rw [deleteTreino_found_eq db id t0 rest hm]
    have hget : (db.treinos.filter (fun t => t.id != id)).filter (fun t => t.id == id) = [] :=
      filter_key_ne_then_eq (fun t : Treino => t.id) id db.treinos
    have hsec :
        ((db.secoes.filter (fun s => s.treino_id != id)).filter (fun s => s.treino_id == id)) =
          [] :=
      filter_key_ne_then_eq (fun s : Secao => s.treino_id) id db.secoes
    refine ⟨rfl, ?_, fun _ => ⟨rfl, rfl, ?_, ?_⟩⟩
    · intro hnone
      have ht0 := List.mem_filter.mp (hm ▸ List.mem_cons_self t0 rest)
      have := hnone t0 ht0.1
      simp at ht0
      exact absurd ht0.2 this
    · simp only [getTreinoById, noFail, Bool.false_eq_true, if_false]
      rw [hget]
    · simp only [getSecoes, noFail, Bool.false_eq_true, if_false]
      rw [hsec]
      rfl

/-- Witness for C3 at a concrete store. -/
theorem delete_spec_witness :
    (deleteTreino noFail dbSample 1).status = 200 ∧
    (deleteTreino noFail dbSample 1).body = .message "Treino deleted successfully" ∧
    (getTreinoById noFail (deleteTreino noFail dbSample 1).db 1).status = 404 ∧
    (getSecoes noFail (deleteTreino noFail dbSample 1).db 1).body = .secoes [] :=
  (delete_spec dbSample 1).2.2 ⟨tSample, by decide, rfl⟩

/-- C4: POST /api/treinos inserts the workout row first (obtaining its
generated id), then one section row per element of `secoes` in input
order, and responds 201 with the created workout row only; a subsequent
GET /api/treinos/:id on that id returns the workout, whose fields equal
the submitted values with both timestamps set to the server clock. -/
theorem post_then_get_spec (db : DB) (b : TreinoBody) (xs : List SecaoInput)
    (hs : b.secoes = .arr xs)
    (hfresh : ∀ t ∈ db.treinos, t.id ≠ db.nextTreinoId) :
    (postTreinos noFail db b).status = 201 ∧
    (postTreinos noFail db b).body = .treino (mkTreino db.nextTreinoId db.now b) ∧
    (postTreinos noFail db b).db.treinos = db.treinos ++ [mkTreino db.nextTreinoId db.now b] ∧
    (postTreinos noFail db b).db.secoes =
      db.secoes ++ mkSecoesList db.nextTreinoId db.nextSecaoId db.now xs ∧
    getTreinoById noFail (postTreinos noFail db b).db db.nextTreinoId =
      ⟨200, .treino (mkTreino db.nextTreinoId db.now b), (postTreinos noFail db b).db⟩ ∧
    (mkTreino db.nextTreinoId db.now b).data = b.data ∧
    (mkTreino db.nextTreinoId db.now b).dia_semana = b.dia_semana ∧
    (mkTreino db.nextTreinoId db.now b).foco_tecnico = b.foco_tecnico ∧
    (mkTreino db.nextTreinoId db.now b).criado_em = db.now ∧
    (mkTreino db.nextTreinoId db.now b).atualizado_em = db.now := by
  rw [postTreinos_arr_eq db b xs hs]
  refine ⟨rfl, rfl, rfl, rfl, ?_, rfl, rfl, rfl, rfl, rfl⟩
  have hfil : (db.treinos ++ [mkTreino db.nextTreinoId db.now b]).filter
      (fun t => t.id == db.nextTreinoId) = [mkTreino db.nextTreinoId db.now b] := by
    rw [List.filter_append, filter_id_eq_nil hfresh]
    simp [mkTreino]
  simp only [getTreinoById, noFail, Bool.false_eq_true, if_false]
  rw [hfil]

/-- Witness for C4 at a concrete store and request. -/
theorem post_then_get_spec_witness :
    (postTreinos noFail dbSample bArr).status = 201 ∧
    getTreinoById noFail (postTreinos noFail dbSample bArr).db dbSample.nextTreinoId =
      ⟨200, .treino (mkTreino dbSample.nextTreinoId dbSample.now bArr),
       (postTreinos noFail dbSample bArr).db⟩ :=
  ⟨(post_then_get_spec dbSample bArr [xSample] rfl (by decide)).1,
   (post_then_get_spec dbSample bArr [xSample] rfl (by decide)).2.2.2.2.1⟩

/-- C5: GET /api/treinos/:id responds 500 with a generic error exactly
when the store query fails; otherwise it responds 404 with a descriptive
error exactly when no workout row has the id, and 200 with the single
matching row when one exists. -/
theorem get_by_id_spec (f : Nat → Bool) (db : DB) (id : Nat) :
    ((getTreinoById f db id).status = 500 ↔ f 0 = true) ∧
    (f 0 = true → getTreinoById f db id = ⟨500, .error "Failed to fetch treino", db⟩) ∧
    (f 0 = false →
      (((getTreinoById f db id).status = 404 ∧
        (getTreinoById f db id).body = .error "Treino not found") ↔
        ∀ t ∈ db.treinos, t.id ≠ id)) ∧
    (f 0 = false → ∀ t ∈ db.treinos, t.id = id →
      (∀ u ∈ db.treinos, u.id = id → u = t) →
      getTreinoById f db id = ⟨200, .treino t, db⟩) := by
  by_cases hf : f 0 = true
  · exact ⟨by simp [getTreinoById, hf], fun _ => by simp [getTreinoById, hf],
      fun hc => by simp [hf] at hc, fun hc => by simp [hf] at hc⟩
  · have hf' : f 0 = false := by simpa using hf
    rcases hm : db.treinos.filter (fun t => t.id == id) with _ | ⟨t0, rest⟩
    · have heq : getTreinoById f db id = ⟨404, .error "Treino not found", db⟩ := by
        simp only [getTreinoById, hf', Bool.false_eq_true, if_false, hm]
      refine ⟨by simp [heq, hf'], fun hc => by simp [hc] at hf', fun _ => ?_, fun _ => ?_⟩
      · refine iff_of_true (by simp [heq]) ?_
        intro t ht hid
        have := List.filter_eq_nil_iff.mp hm t ht
        simp [hid] at this
      · intro t ht hid huniq
        exfalso
        have := List.filter_eq_nil_iff.mp hm t ht
        simp [hid] at this
    · have heq : getTreinoById f db id = ⟨200, .treino t0, db⟩ := by
        simp only [getTreinoById, hf', Bool.false_eq_true, if_false, hm]
      have ht0 : t0 ∈ db.treinos ∧ t0.id = id := by
        have := List.mem_filter.mp (hm ▸ List.mem_cons_self t0 rest)
        simpa using this
      refine ⟨by simp [heq, hf'], fun hc => by simp [hc] at hf', fun _ => ?_, fun _ => ?_⟩
      · refine iff_of_false (by simp [heq]) ?_
        intro hnone
        exact hnone t0 ht0.1 ht0.2
      · intro t ht hid huniq
        rw [heq, huniq t0 ht0.1 ht0.2]

/-- Witness for C5 at a concrete store: the 200 case and the 500 case. -/
theorem get_by_id_spec_witness :
    getTreinoById noFail dbSample 1 = ⟨200, .treino tSample, dbSample⟩ ∧
    getTreinoById (failAt 0) dbSample 1 = ⟨500, .error "Failed to fetch treino", dbSample⟩ :=
  ⟨(get_by_id_spec noFail dbSample 1).2.2.2 rfl tSample (by decide) rfl (by decide),
   (get_by_id_spec (failAt 0) dbSample 1).2.1 rfl⟩

/-- C6: GET /api/treinos/:id/secoes responds 200 with exactly the
sections whose treino_id equals id, sorted ascending by ordem; the
handler performs no workout-existence check, so this holds for every
store and id, including ids matching no workout. -/
theorem get_secoes_spec (db : DB) (id : Nat) :
    getSecoes noFail db id =
      ⟨200, .secoes (sortByOrdem (db.secoes.filter (fun s => s.treino_id == id))), db⟩ ∧
    (sortByOrdem (db.secoes.filter (fun s => s.treino_id == id))).Perm
      (db.secoes.filter (fun s => s.treino_id == id)) ∧
    (sortByOrdem (db.secoes.filter (fun s => s.treino_id == id))).Pairwise
      (fun a b => a.ordem ≤ b.ordem) := by
  refine ⟨by simp [getSecoes, noFail], List.perm_insertionSort secaoLe _, ?_⟩
  exact List.sorted_insertionSort secaoLe _

/-- C7: GET /api/treinos responds 200 with all workout rows sorted by
`data` descending (most recent first), and 500 with a generic error when
the store query fails. -/
theorem list_treinos_spec (f : Nat → Bool) (db : DB) :
    (f 0 = false →
      getTreinos f db = ⟨200, .treinos (sortByDataDesc db.treinos), db⟩ ∧
      (sortByDataDesc db.treinos).Perm db.treinos ∧
      (sortByDataDesc db.treinos).Pairwise (fun a b => b.data ≤ a.data)) ∧
    (f 0 = true → getTreinos f db = ⟨500, .error "Failed to fetch treinos", db⟩) := by
  constructor
  · intro hf
    exact ⟨by simp [getTreinos, hf], List.perm_insertionSort treinoGe _,
      List.sorted_insertionSort treinoGe _⟩
  · intro hf
    simp [getTreinos, hf]

/-- Witness for C7 at a concrete store: the 200 case and the 500 case. -/
theorem list_treinos_spec_witness :
    getTreinos noFail dbSample = ⟨200, .treinos (sortByDataDesc dbSample.treinos), dbSample⟩ ∧
    getTreinos (failAt 0) dbSample = ⟨500, .error "Failed to fetch treinos", dbSample⟩ :=
  ⟨((list_treinos_spec noFail dbSample).1 rfl).1, (list_treinos_spec (failAt 0) dbSample).2 rfl⟩

/-- C8: when the workout insert of POST /api/treinos succeeds but the
(i+1)-th section insert fails, the handler responds 500 with a generic
error and performs no compensating rollback: the created workout row and
the i sections inserted before the failure remain in the store. -/
theorem post_partial_failure_no_rollback (db : DB) (b : TreinoBody) (xs : List SecaoInput)
    (i : Nat) (hs : b.secoes = .arr xs) (hi : i < xs.length) :
    (postTreinos (failAt (1 + i)) db b).status = 500 ∧
    (postTreinos (failAt (1 + i)) db b).body = .error "Failed to create treino" ∧
    mkTreino db.nextTreinoId db.now b ∈ (postTreinos (failAt (1 + i)) db b).db.treinos ∧
    (postTreinos (failAt (1 + i)) db b).db.secoes =
      db.secoes ++ mkSecoesList db.nextTreinoId db.nextSecaoId db.now (xs.take i) := by
  have hf0 : failAt (1 + i) 0 = false := by
    simp only [failAt, beq_eq_false_iff_ne, ne_eq]
    omega
  have hlo : ∀ j, j < i → failAt (1 + i) (1 + j) = false := by
    intro j hj
    simp only [failAt, beq_eq_false_iff_ne, ne_eq]
    omega
  have hhi : failAt (1 + i) (1 + i) = true := by simp [failAt]
  simp only [postTreinos, hf0, Bool.false_eq_true, if_false, hs]
  rw [insertSecoesGo_failAt (failAt (1 + i)) _ i xs 1 _ hlo hhi hi]
  refine ⟨rfl, rfl, ?_, rfl⟩
  simp

/-- Witness for C8: a failure at the first section insert leaves the
workout row and no section behind, with a 500 answer. -/
theorem post_partial_failure_no_rollback_witness :
    (postTreinos (failAt 1) dbSample bArr).status = 500 ∧
    (postTreinos (failAt 1) dbSample bArr).body = .error "Failed to create treino" ∧
    mkTreino dbSample.nextTreinoId dbSample.now bArr ∈
      (postTreinos (failAt 1) dbSample bArr).db.treinos ∧
    (postTreinos (failAt 1) dbSample bArr).db.secoes =
      dbSample.secoes ++
        mkSecoesList dbSample.nextTreinoId dbSample.nextSecaoId dbSample.now ([xSample].take 0) :=
  post_partial_failure_no_rollback dbSample bArr [xSample] 0 rfl (by decide)

/-- C9: a POST or PUT whose `secoes` body field is present but not an
array does not fail: zero section rows are inserted, the section step is
skipped silently, and the handler still answers its success status (201
for POST, 200 for PUT) carrying the workout row. -/
theorem non_array_secoes_skipped (db : DB) (id : Nat) (b : TreinoBody)
    (hna : b.secoes = .notArray) :
    (postTreinos noFail db b).status = 201 ∧
    (postTreinos noFail db b).body = .treino (mkTreino db.nextTreinoId db.now b) ∧
    (postTreinos noFail db b).db.secoes = db.secoes ∧
    ((∃ t ∈ db.treinos, t.id = id) →
      (putTreino noFail db id b).status = 200 ∧
      (∃ t0 ∈ db.treinos, t0.id = id ∧
        (putTreino noFail db id b).body = .treino (updTreino b db.now t0)) ∧
      (putTreino noFail db id b).db.secoes = db.secoes.filter (fun s => s.treino_id != id)) := by
  rw [postTreinos_notArray_eq db b hna]
  refine ⟨rfl, rfl, rfl, ?_⟩
  rintro ⟨t, ht, hid⟩
  have hmem : t ∈ db.treinos.filter (fun t => t.id == id) := by
    simp [List.mem_filter, ht, hid]
  rcases hm : db.treinos.filter (fun t => t.id == id) with _ | ⟨t0, rest⟩
  · rw [hm] at hmem; simp at hmem
  · rw [putTreino_notArray_eq db id b hna t0 rest hm]
    have ht0 : t0 ∈ db.treinos ∧ t0.id = id := by
      have := List.mem_filter.mp (hm ▸ List.mem_cons_self t0 rest)
      simpa using this
    exact ⟨rfl, ⟨t0, ht0.1, ht0.2, rfl⟩, rfl⟩

/-- Witness for C9 at a concrete store and request. -/
theorem non_array_secoes_skipped_witness :
    (postTreinos noFail dbSample bNA).status = 201 ∧
    (putTreino noFail dbSample 1 bNA).status = 200 ∧
    (putTreino noFail dbSample 1 bNA).db.secoes =
      dbSample.secoes.filter (fun s => s.treino_id != 1) :=
  ⟨(non_array_secoes_skipped dbSample 1 bNA rfl).1,
   ((non_array_secoes_skipped dbSample 1 bNA rfl).2.2.2 ⟨tSample, by decide, rfl⟩).1,
   ((non_array_secoes_skipped dbSample 1 bNA rfl).2.2.2 ⟨tSample, by decide, rfl⟩).2.2⟩

theorem putTreino_db_eq_insert (f : Nat → Bool) (db : DB) (id : Nat) (b : TreinoBody)
    (xs : List SecaoInput) (hs : b.secoes = .arr xs) (t0 : Treino) (rest : List Treino)
    (hm : db.treinos.filter (fun t => t.id == id) = t0 :: rest)
    (h0 : f 0 = false) (h1 : f 1 = false) :
    (putTreino f db id b).db =
      (insertSecoesGo f id 2
        ⟨db.treinos.map (fun t => if t.id == id then updTreino b db.now t else t),
         db.secoes.filter (fun s => s.treino_id != id),
         db.nextTreinoId, db.nextSecaoId, db.now⟩ xs).1 := by
  simp only [putTreino, h0, Bool.false_eq_true, if_false, hm, List.map_cons, h1, hs]
  split <;> rfl

theorem putTreino_frame (f : Nat → Bool) (db : DB) (id : Nat) (b : TreinoBody) :
    (putTreino f db id b).db.treinos.filter (fun t => t.id != id) =
      db.treinos.filter (fun t => t.id != id) ∧
    (putTreino f db id b).db.secoes.filter (fun s => s.treino_id != id) =
      db.secoes.filter (fun s => s.treino_id != id) := by
  by_cases h0 : f 0 = true
  · simp [putTreino, h0]
  have h0' : f 0 = false := by simpa using h0
  rcases hm : db.treinos.filter (fun t => t.id == id) with _ | ⟨t0, rest⟩
  · simp only [putTreino, h0', Bool.false_eq_true, if_false, hm, List.map_nil]
    exact ⟨filter_map_upd id b db.now db.treinos, by trivial⟩
  by_cases h1 : f 1 = true
  · simp only [putTreino, h0', Bool.false_eq_true, if_false, hm, List.map_cons, h1, if_true]
    exact ⟨filter_map_upd id b db.now db.treinos, by trivial⟩
  have h1' : f 1 = false := by simpa using h1
  rcases hsec : b.secoes with _ | _ | xs
  · simp only [putTreino, h0', Bool.false_eq_true, if_false, hm, List.map_cons, h1', hsec]
    exact ⟨filter_map_upd id b db.now db.treinos,
      filter_key_ne_idem (fun s : Secao => s.treino_id) id db.secoes⟩
  · simp only [putTreino, h0', Bool.false_eq_true, if_false, hm, List.map_cons, h1', hsec]
    exact ⟨filter_map_upd id b db.now db.treinos,
      filter_key_ne_idem (fun s : Secao => s.treino_id) id db.secoes⟩
  · rw [putTreino_db_eq_insert f db id b xs hsec t0 rest hm h0' h1']
    obtain ⟨l, hts, hss, hl⟩ := insertSecoesGo_frame f id xs 2
      ⟨db.treinos.map (fun t => if t.id == id then updTreino b db.now t else t),
       db.secoes.filter (fun s => s.treino_id != id), db.nextTreinoId, db.nextSecaoId, db.now⟩
    refine ⟨?_, ?_⟩
    · rw [hts]
      exact filter_map_upd id b db.now db.treinos
    · rw [hss]
      show ((db.secoes.filter (fun s => s.treino_id != id)) ++ l).filter
          (fun s => s.treino_id != id) = db.secoes.filter (fun s => s.treino_id != id)
      rw [List.filter_append, filter_key_ne_idem (fun s : Secao => s.treino_id) id]
      have hnil : l.filter (fun s => s.treino_id != id) = [] := by
        apply List.filter_eq_nil_iff.mpr
        intro s hsl
        simp [hl s hsl]
      rw [hnil, List.append_nil]

theorem deleteTreino_frame (f : Nat → Bool) (db : DB) (id : Nat) :
    (deleteTreino f db id).db.treinos.filter (fun t => t.id != id) =
      db.treinos.filter (fun t => t.id != id) ∧
    (deleteTreino f db id).db.secoes.filter (fun s => s.treino_id != id) =
      db.secoes.filter (fun s => s.treino_id != id) := by
  by_cases h0 : f 0 = true
  · simp [deleteTreino, h0]
  have h0' : f 0 = false := by simpa using h0
  by_cases h1 : f 1 = true
  · simp only [deleteTreino, h0', Bool.false_eq_true, if_false, h1, if_true]
    exact ⟨by trivial, filter_key_ne_idem (fun s : Secao => s.treino_id) id db.secoes⟩
  have h1' : f 1 = false := by simpa using h1
  rcases hm : db.treinos.filter (fun t => t.id == id) with _ | ⟨t0, rest⟩ <;>
  · simp only [deleteTreino, h0', h1', Bool.false_eq_true, if_false, hm]
    exact ⟨filter_key_ne_idem (fun t : Treino => t.id) id db.treinos,
      filter_key_ne_idem (fun s : Secao => s.treino_id) id db.secoes⟩

/-- C10: PUT and DELETE on /api/treinos/:id leave every workout row whose
id differs from :id and every section row whose treino_id differs from
:id unchanged, whatever the outcome (200, 404, or a 500 from any failure
pattern of the store). -/
theorem put_delete_frame (f : Nat → Bool) (db : DB) (id : Nat) (b : TreinoBody) :
    (putTreino f db id b).db.treinos.filter (fun t => t.id != id) =
      db.treinos.filter (fun t => t.id != id) ∧
    (putTreino f db id b).db.secoes.filter (fun s => s.treino_id != id) =
      db.secoes.filter (fun s => s.treino_id != id) ∧
    (deleteTreino f db id).db.treinos.filter (fun t => t.id != id) =
      db.treinos.filter (fun t => t.id != id) ∧
    (deleteTreino f db id).db.secoes.filter (fun s => s.treino_id != id) =
      db.secoes.filter (fun s => s.treino_id != id) :=
  ⟨(putTreino_frame f db id b).1, (putTreino_frame f db id b).2,
   (deleteTreino_frame f db id).1, (deleteTreino_frame f db id).2⟩
